import Mathlib

/-!
# gym-sapientino simulation engine: a shallow embedding

This development embeds the simulation engine of the gym-sapientino
repository (map representation, per-agent motion models, collision and
boundary resolution, beep/visit bookkeeping, reward computation) and
proves the specified properties about it.

The Python modules holding the engine (`gym_sapientino/core/...`) are not
among the provided source files; only the packaging metadata, the README
files and the quickstart notebook are.  Every definition below is
therefore modelled from the specification text (and, where noted, from
the recorded outputs in `docs/quickstart.ipynb`), faithful to its words.
-/

namespace Sapientino

/-- Modelled from the spec: `Color` is an enumerated value over a small
closed set, with `blank` marking an unpainted cell (the engine source
`gym_sapientino/core` is missing from the provided files). -/
inductive Color where
  | blank
  | red
  | green
  | blue
  | yellow
  | pink
deriving DecidableEq

/-- Modelled from the spec: `ColorGrid` is a 2D map of cell colours of
fixed dimensions together with a mutable set of visited cells
(initialized empty).  Colours are a total function on integer cells;
bounds are enforced through `is_inside`.  The engine source is missing
from the provided files. -/
structure ColorGrid where
  width : Nat
  height : Nat
  colorAt : Int × Int → Color
  visited : List (Int × Int)

/-- Modelled from the spec: pure boundary test used by the
CollisionResolver; a cell is inside when it lies in
[0, width) × [0, height). -/
def ColorGrid.is_inside (g : ColorGrid) (p : Int × Int) : Bool :=
  decide (0 ≤ p.1) && decide (p.1 < (g.width : Int)) &&
  decide (0 ≤ p.2) && decide (p.2 < (g.height : Int))

/-- Modelled from the spec: `mark_visited` returns true if this is the
first visit to a coloured (non-blank) cell, false if already visited or
the cell is blank; marking a blank cell is a no-op that still returns
false.  It returns the updated grid alongside the flag, the only
mutation point of `ColorGrid`. -/
def ColorGrid.mark_visited (g : ColorGrid) (p : Int × Int) : Bool × ColorGrid :=
  if g.colorAt p ≠ Color.blank ∧ p ∉ g.visited then
    (true, { g with visited := p :: g.visited })
  else
    (false, g)

/-- Modelled from the spec: the action set of the Grid motion model. -/
inductive GridAction where
  | up
  | down
  | left
  | right
  | beep
  | nop
deriving DecidableEq

/-- Modelled from the spec: the Grid motion model.  up/down/left/right
move exactly one integer cell in that axis; beep/nop leave the position
unchanged; no bounds checking (bounds enforcement belongs to the
CollisionResolver). -/
def gridPropose (p : Int × Int) : GridAction → Int × Int
  | GridAction.up => (p.1, p.2 + 1)
  | GridAction.down => (p.1, p.2 - 1)
  | GridAction.left => (p.1 - 1, p.2)
  | GridAction.right => (p.1 + 1, p.2)
  | GridAction.beep => p
  | GridAction.nop => p

/-- Modelled from the spec: the kinematic state of the Rotary motion
model, an integer cell plus a discrete orientation theta in {0,1,2,3}
(90 degree steps; theta = 0 faces east, turning left increments theta,
so theta = 1 faces north, as in the spec scenario). -/
structure RotaryState where
  x : Int
  y : Int
  theta : Fin 4
deriving DecidableEq

/-- Modelled from the spec: the action set of the Rotary motion model. -/
inductive RotaryAction where
  | forward
  | backward
  | turnLeft
  | turnRight
  | beep
  | nop
deriving DecidableEq

/-- Modelled from the spec: the unit displacement implied by a discrete
orientation (east = +x, north = +y). -/
def thetaDir : Fin 4 → Int × Int
  | 0 => (1, 0)
  | 1 => (0, 1)
  | 2 => (-1, 0)
  | 3 => (0, -1)

/-- Modelled from the spec: the Rotary motion model.  turn-left and
turn-right rotate theta by plus and minus one (mod 4) leaving the
position unchanged; forward and backward move one cell along (reverse
of) the current facing; beep/nop leave the state unchanged. -/
def rotaryPropose (s : RotaryState) : RotaryAction → RotaryState
  | RotaryAction.forward =>
      { s with x := s.x + (thetaDir s.theta).1, y := s.y + (thetaDir s.theta).2 }
  | RotaryAction.backward =>
      { s with x := s.x - (thetaDir s.theta).1, y := s.y - (thetaDir s.theta).2 }
  | RotaryAction.turnLeft => { s with theta := s.theta + 1 }
  | RotaryAction.turnRight => { s with theta := s.theta - 1 }
  | RotaryAction.beep => s
  | RotaryAction.nop => s

/-- Modelled from the spec: the action set of the Continuous motion
model. -/
inductive ContAction where
  | accelerate
  | decelerate
  | turnLeft
  | turnRight
  | beep
  | nop
deriving DecidableEq

/-- Modelled from the spec: the numeric parameters of the Continuous
motion model.  The real-valued trigonometric functions of the source are
abstracted as rational-valued parameters `cos` and `sin` so that the
model stays executable; every theorem about the model holds for every
choice of these functions. -/
structure ContParams where
  cos : ℚ → ℚ
  sin : ℚ → ℚ
  accel_step : ℚ
  angle_step : ℚ
  v_min : ℚ
  v_max : ℚ

/-- Modelled from the spec: the kinematic state of the Continuous motion
model: real-valued position, signed scalar velocity, angle in
degrees. -/
structure ContState where
  x : ℚ
  y : ℚ
  velocity : ℚ
  angle : ℚ
deriving DecidableEq

/-- Modelled from the spec: clamping of the velocity into
[v_min, v_max]. -/
def clampV (P : ContParams) (v : ℚ) : ℚ :=
  max P.v_min (min P.v_max v)

/-- Modelled from the spec: wrapping of an angle in degrees into the
interval [0, 360). -/
def wrap360 (a : ℚ) : ℚ :=
  a - 360 * ⌊a / 360⌋

/-- Modelled from the spec: the Continuous motion model.  Velocity
updates by plus or minus `accel_step` on accelerate/decelerate, clamped
to [v_min, v_max]; the angle updates by plus or minus `angle_step` on
turn actions, wrapped into [0, 360); the position integrates as a single
Euler step using the pre-update angle and velocity; beep and nop leave
velocity, angle and position unchanged. -/
def contPropose (P : ContParams) (s : ContState) : ContAction → ContState
  | ContAction.accelerate =>
      { x := s.x + s.velocity * P.cos s.angle
        y := s.y + s.velocity * P.sin s.angle
        velocity := clampV P (s.velocity + P.accel_step)
        angle := s.angle }
  | ContAction.decelerate =>
      { x := s.x + s.velocity * P.cos s.angle
        y := s.y + s.velocity * P.sin s.angle
        velocity := clampV P (s.velocity - P.accel_step)
        angle := s.angle }
  | ContAction.turnLeft =>
      { x := s.x + s.velocity * P.cos s.angle
        y := s.y + s.velocity * P.sin s.angle
        velocity := s.velocity
        angle := wrap360 (s.angle + P.angle_step) }
  | ContAction.turnRight =>
      { x := s.x + s.velocity * P.cos s.angle
        y := s.y + s.velocity * P.sin s.angle
        velocity := s.velocity
        angle := wrap360 (s.angle - P.angle_step) }
  | ContAction.beep => s
  | ContAction.nop => s

/-- Modelled from the spec: the transient per-agent per-step event
record consumed by the RewardPolicy. -/
structure StepEvent where
  moved : Bool
  hit_boundary : Bool
  beeped : Bool
  duplicate_beep : Bool
deriving DecidableEq

/-- Modelled from the spec: the reward scalars of the configuration. -/
structure RewardConfig where
  reward_per_step : ℚ
  reward_outside_grid : ℚ
  reward_duplicate_beep : ℚ
deriving DecidableEq

/-- Modelled from the spec: the per-agent reward is `reward_per_step`
(always added), plus `reward_outside_grid` if `hit_boundary`, plus
`reward_duplicate_beep` if `duplicate_beep`; a pure function of the
event, with no other contribution. -/
def RewardPolicy.score (rc : RewardConfig) (e : StepEvent) : ℚ :=
  rc.reward_per_step +
    (if e.hit_boundary then rc.reward_outside_grid else 0) +
    (if e.duplicate_beep then rc.reward_duplicate_beep else 0)

/-- Modelled from the spec (CollisionResolver, boundary phase): the
boundary-checked position of agent `i` — its proposal when inside the
grid, otherwise its current position (the agent does not move). -/
def bpos (g : ColorGrid) (cur prop : Fin n → Int × Int) (i : Fin n) : Int × Int :=
  if g.is_inside (prop i) then prop i else cur i

/-- Modelled from the spec (CollisionResolver, conflict phase): agent
`i` is blocked when some lower-index agent has the same boundary-checked
position, so that the deterministic tie-break by ascending agent index
reverts `i`. -/
def blockedB (g : ColorGrid) (cur prop : Fin n → Int × Int) (i : Fin n) : Bool :=
  decide (∃ j, j < i ∧ bpos g cur prop j = bpos g cur prop i)

/-- Modelled from the spec (CollisionResolver): the accepted position of
agent `i` — its current (pre-step) position when it is blocked by a
lower-index agent, otherwise its boundary-checked position. -/
def acceptedPos (g : ColorGrid) (cur prop : Fin n → Int × Int) (i : Fin n) : Int × Int :=
  if blockedB g cur prop i then cur i else bpos g cur prop i

/-- Modelled from the spec (CollisionResolver): the hit-boundary flag of
agent `i`, set when its proposal was out of bounds or when it was
reverted by the inter-agent tie-break. -/
def hitB (g : ColorGrid) (cur prop : Fin n → Int × Int) (i : Fin n) : Bool :=
  !g.is_inside (prop i) || blockedB g cur prop i

/-- Modelled from the spec (engine step 3): the grid after the beep
actions of the agents with index below `k` have been processed in
ascending index order, each calling `mark_visited` at the accepted
position of the beeping agent. -/
def gridAfter (g : ColorGrid) (acts : Fin n → GridAction) (fpos : Fin n → Int × Int) :
    Nat → ColorGrid
  | 0 => g
  | k + 1 =>
    if h : k < n then
      if acts ⟨k, h⟩ = GridAction.beep then
        ((gridAfter g acts fpos k).mark_visited (fpos ⟨k, h⟩)).2
      else gridAfter g acts fpos k
    else gridAfter g acts fpos k

/-- Modelled from the spec (engine step 3): the duplicate-beep flag of
agent `i` is set iff its action is beep and the `mark_visited` call made
for it (on the grid as already updated by the lower-index beeps)
returned false on a coloured cell. -/
def dupFlag (g : ColorGrid) (acts : Fin n → GridAction) (fpos : Fin n → Int × Int)
    (i : Fin n) : Bool :=
  acts i == GridAction.beep &&
    !((gridAfter g acts fpos i.val).mark_visited (fpos i)).1 &&
    ((gridAfter g acts fpos i.val).colorAt (fpos i) != Color.blank)

/-- Modelled from the spec: the engine state for `n` Grid-motion agents:
the shared colour grid with its visited set, and per agent the committed
position, the last-action beep flag and the cumulative boundary and
duplicate-beep violation counters. -/
structure MAState (n : Nat) where
  grid : ColorGrid
  pos : Fin n → Int × Int
  beep_flag : Fin n → Bool
  boundary_count : Fin n → Nat
  dup_count : Fin n → Nat

/-- Modelled from the spec (engine step 1): every agent proposes its
next position through its motion model, independently. -/
def stepProp (st : MAState n) (acts : Fin n → GridAction) (i : Fin n) : Int × Int :=
  gridPropose (st.pos i) (acts i)

/-- Modelled from the spec (engine step 2): the accepted position of
agent `i` after collision resolution over all proposals. -/
def stepAccepted (st : MAState n) (acts : Fin n → GridAction) (i : Fin n) : Int × Int :=
  acceptedPos st.grid st.pos (stepProp st acts) i

/-- Modelled from the spec (engine steps 2-3): the per-agent event
record assembled during one step. -/
def stepEvents (st : MAState n) (acts : Fin n → GridAction) (i : Fin n) : StepEvent :=
  { moved := stepAccepted st acts i != st.pos i
    hit_boundary := hitB st.grid st.pos (stepProp st acts) i
    beeped := acts i == GridAction.beep
    duplicate_beep := dupFlag st.grid acts (stepAccepted st acts) i }

/-- Modelled from the spec (engine steps 1-4): the committed engine
state after one `step(actions)` call: the grid updated by all beeps, the
accepted positions committed, the beep flags refreshed and the violation
counters incremented. -/
def stepState (st : MAState n) (acts : Fin n → GridAction) : MAState n :=
  { grid := gridAfter st.grid acts (stepAccepted st acts) n
    pos := stepAccepted st acts
    beep_flag := fun i => acts i == GridAction.beep
    boundary_count := fun i =>
      st.boundary_count i + (if (stepEvents st acts i).hit_boundary then 1 else 0)
    dup_count := fun i =>
      st.dup_count i + (if (stepEvents st acts i).duplicate_beep then 1 else 0) }

/-- Modelled from the spec (engine step 5): the per-agent rewards of one
step, through the RewardPolicy. -/
def stepRewards (rc : RewardConfig) (st : MAState n) (acts : Fin n → GridAction)
    (i : Fin n) : ℚ :=
  RewardPolicy.score rc (stepEvents st acts i)

/-- Modelled from the spec: the engine configuration consumed at reset:
the colour grid source and the ordered initial positions of the
agents. -/
structure EngineConf (n : Nat) where
  grid0 : ColorGrid
  inits : Fin n → Int × Int

/-- Modelled from the spec: `reset()` reinitializes every agent to its
configured initial state and clears the visited set, the beep flags and
all violation counters. -/
def resetState (c : EngineConf n) : MAState n :=
  { grid := { c.grid0 with visited := [] }
    pos := c.inits
    beep_flag := fun _ => false
    boundary_count := fun _ => 0
    dup_count := fun _ => 0 }

/-- Modelled from the spec: running the engine from reset through a list
of joint actions, one `step` per list element. -/
def runSteps (c : EngineConf n) (l : List (Fin n → GridAction)) : MAState n :=
  l.foldl stepState (resetState c)

/-- Modelled from the spec: folding `mark_visited` over a list of cells,
keeping only the grids (used to speak about arbitrary later calls). -/
def markAll (g : ColorGrid) (ps : List (Int × Int)) : ColorGrid :=
  ps.foldl (fun gr p => (gr.mark_visited p).2) g

/-- Modelled from the spec (engine step 6) and the recorded
`env.reset()` output of `docs/quickstart.ipynb`: the per-agent
observation snapshot: continuous and discretized position, velocity,
angle, the discretized orientation theta (the angle divided by 90,
reduced mod 4), the beep flag and the currently observed colour. -/
structure Observation where
  x : ℚ
  y : ℚ
  discrete_x : Int
  discrete_y : Int
  velocity : ℚ
  angle : ℚ
  theta : Nat
  beep : Bool
  color : Color
deriving DecidableEq

/-- Modelled from the spec: the discretized orientation reported in
observations, the angle in degrees divided by 90 and reduced mod 4. -/
def thetaOfAngle (a : ℚ) : Nat :=
  (⌊a / 90⌋).toNat % 4

/-- Modelled from the spec and the recorded `env.reset()` output of
`docs/quickstart.ipynb` (the engine source is missing from the provided
files): the observation of a freshly reset agent.  The agent
configuration specifies only an initial position; the engine starts
every agent with velocity 0, no beep, and the default initial direction
of 90 degrees. -/
def defaultInitAngle : ℚ := 90

/-- Modelled from the spec and the recorded `env.reset()` output of
`docs/quickstart.ipynb`: the observation returned by `reset()` for an
agent configured with initial cell `init`. -/
def resetObs (g : ColorGrid) (init : Int × Int) : Observation :=
  { x := (init.1 : ℚ)
    y := (init.2 : ℚ)
    discrete_x := init.1
    discrete_y := init.2
    velocity := 0
    angle := defaultInitAngle
    theta := thetaOfAngle defaultInitAngle
    beep := false
    color := g.colorAt init }

/-- Modelled from the spec (test scenario): a 5 by 5 all-blank grid. -/
def blank5 : ColorGrid :=
  { width := 5, height := 5, colorAt := fun _ => Color.blank, visited := [] }

/-- Modelled from the spec (test scenario): one Grid-motion agent
starting at cell (1,1) on the blank 5 by 5 grid. -/
def scenarioConf : EngineConf 1 :=
  { grid0 := blank5, inits := fun _ => (1, 1) }

/-- The joint action vectors of the spec scenario, in order: right,
right, up (one agent). -/
def scenarioActs : List (Fin 1 → GridAction) :=
  [fun _ => GridAction.right, fun _ => GridAction.right, fun _ => GridAction.up]

/-- The engine states along the scenario run. -/
def scenarioSt0 : MAState 1 := resetState scenarioConf

/-- The engine state after the first scenario step. -/
def scenarioSt1 : MAState 1 := stepState scenarioSt0 (fun _ => GridAction.right)

/-- The engine state after the second scenario step. -/
def scenarioSt2 : MAState 1 := stepState scenarioSt1 (fun _ => GridAction.right)

/-- The engine state after the third scenario step. -/
def scenarioSt3 : MAState 1 := stepState scenarioSt2 (fun _ => GridAction.up)

/-- The event of the single agent in the first scenario step. -/
def scenarioEv1 : StepEvent := stepEvents scenarioSt0 (fun _ => GridAction.right) 0

/-- The event of the single agent in the second scenario step. -/
def scenarioEv2 : StepEvent := stepEvents scenarioSt1 (fun _ => GridAction.right) 0

/-- The event of the single agent in the third scenario step. -/
def scenarioEv3 : StepEvent := stepEvents scenarioSt2 (fun _ => GridAction.up) 0

/-- Concrete Continuous-model parameters used to exhibit inputs: the
abstract cosine is constantly 1 and the abstract sine constantly 0, the
acceleration step is 1, the angle step 90, and the velocity bounds are
[-1, 2]. -/
def contP0 : ContParams :=
  { cos := fun _ => 1, sin := fun _ => 0
    accel_step := 1, angle_step := 90, v_min := -1, v_max := 2 }

/-- A concrete Continuous state with nonzero velocity. -/
def contS0 : ContState := { x := 0, y := 0, velocity := 1, angle := 0 }

/-- Modelled from the spec (test scenario): one Grid-motion agent at the
grid corner (0,0) on the blank 5 by 5 grid. -/
def edgeConf : EngineConf 1 :=
  { grid0 := blank5, inits := fun _ => (0, 0) }

/-- The reset state of the corner scenario. -/
def edgeSt0 : MAState 1 := resetState edgeConf

/-- Current positions of a concrete two-agent resolver instance. -/
def twoCur : Fin 2 → Int × Int := ![(0, 0), (2, 2)]

/-- Proposals of a concrete two-agent resolver instance: both agents
propose the same cell (1,1). -/
def twoProp : Fin 2 → Int × Int := ![(1, 1), (1, 1)]

/-- A one-cell grid whose only cell is coloured red. -/
def redGrid : ColorGrid :=
  { width := 1, height := 1, colorAt := fun _ => Color.red, visited := [] }

/-! ## Helper lemmas about `mark_visited` -/

theorem mark_fst_iff (g : ColorGrid) (p : Int × Int) :
    (g.mark_visited p).1 = true ↔ (g.colorAt p ≠ Color.blank ∧ p ∉ g.visited) := by
  unfold ColorGrid.mark_visited
  split
  · next h => simp [h]
  · next h => simp [h]

theorem mark_fst_false_of_mem (g : ColorGrid) (p : Int × Int) (h : p ∈ g.visited) :
    (g.mark_visited p).1 = false := by
  cases hb : (g.mark_visited p).1
  · rfl
  · exact absurd h ((mark_fst_iff g p).1 hb).2

theorem mark_blank_eq (g : ColorGrid) (p : Int × Int) (h : g.colorAt p = Color.blank) :
    g.mark_visited p = (false, g) := by
  unfold ColorGrid.mark_visited
  split
  · next hc => exact absurd h hc.1
  · rfl

theorem mark_snd_colorAt (g : ColorGrid) (p : Int × Int) :
    (g.mark_visited p).2.colorAt = g.colorAt := by
  unfold ColorGrid.mark_visited
  split <;> rfl

theorem mark_snd_width (g : ColorGrid) (p : Int × Int) :
    (g.mark_visited p).2.width = g.width := by
  unfold ColorGrid.mark_visited
  split <;> rfl

theorem mark_snd_height (g : ColorGrid) (p : Int × Int) :
    (g.mark_visited p).2.height = g.height := by
  unfold ColorGrid.mark_visited
  split <;> rfl

theorem mark_visited_mono (g : ColorGrid) (p q : Int × Int) (h : q ∈ g.visited) :
    q ∈ (g.mark_visited p).2.visited := by
  unfold ColorGrid.mark_visited
  split
  · exact List.mem_cons_of_mem _ h
  · exact h

theorem mark_visited_cases (g : ColorGrid) (p q : Int × Int)
    (h : q ∈ (g.mark_visited p).2.visited) : q = p ∨ q ∈ g.visited := by
  revert h
  unfold ColorGrid.mark_visited
  split
  · intro h
    simpa using h
  · intro h
    exact Or.inr h

theorem mark_mem_of_fst_true (g : ColorGrid) (p : Int × Int)
    (h : (g.mark_visited p).1 = true) : p ∈ (g.mark_visited p).2.visited := by
  revert h
  unfold ColorGrid.mark_visited
  split
  · intro _
    simp
  · intro h
    exact absurd h (by simp)

/-! ## Helper lemmas about `markAll` -/

theorem markAll_visited_mono (ps : List (Int × Int)) :
    ∀ (g : ColorGrid) (q : Int × Int), q ∈ g.visited → q ∈ (markAll g ps).visited := by
  induction ps with
  | nil => intro g q h; exact h
  | cons p ps ih =>
    intro g q h
    exact ih (g.mark_visited p).2 q (mark_visited_mono g p q h)

/-! ## Helper lemmas about `gridAfter` -/

theorem gridAfter_colorAt (g : ColorGrid) (acts : Fin n → GridAction)
    (fpos : Fin n → Int × Int) (k : Nat) :
    (gridAfter g acts fpos k).colorAt = g.colorAt := by
  induction k with
  | zero => rfl
  | succ k ih =>
    unfold gridAfter
    split
    · split
      · rw [mark_snd_colorAt, ih]
      · exact ih
    · exact ih

theorem gridAfter_width (g : ColorGrid) (acts : Fin n → GridAction)
    (fpos : Fin n → Int × Int) (k : Nat) :
    (gridAfter g acts fpos k).width = g.width := by
  induction k with
  | zero => rfl
  | succ k ih =>
    unfold gridAfter
    split
    · split
      · rw [mark_snd_width, ih]
      · exact ih
    · exact ih

theorem gridAfter_height (g : ColorGrid) (acts : Fin n → GridAction)
    (fpos : Fin n → Int × Int) (k : Nat) :
    (gridAfter g acts fpos k).height = g.height := by
  induction k with
  | zero => rfl
  | succ k ih =>
    unfold gridAfter
    split
    · split
      · rw [mark_snd_height, ih]
      · exact ih
    · exact ih

theorem gridAfter_visited_mono (g : ColorGrid) (acts : Fin n → GridAction)
    (fpos : Fin n → Int × Int) (k : Nat) (q : Int × Int) (h : q ∈ g.visited) :
    q ∈ (gridAfter g acts fpos k).visited := by
  induction k with
  | zero => exact h
  | succ k ih =>
    unfold gridAfter
    split
    · split
      · exact mark_visited_mono _ _ _ ih
      · exact ih
    · exact ih

theorem gridAfter_visited_cases (g : ColorGrid) (acts : Fin n → GridAction)
    (fpos : Fin n → Int × Int) (k : Nat) (q : Int × Int)
    (h : q ∈ (gridAfter g acts fpos k).visited) :
    q ∈ g.visited ∨ ∃ i : Fin n, i.val < k ∧ acts i = GridAction.beep ∧ fpos i = q := by
  induction k with
  | zero => exact Or.inl h
  | succ k ih =>
    revert h
    unfold gridAfter
    split
    · next hk =>
      split
      · next hbeep =>
        intro h
        rcases mark_visited_cases _ _ _ h with h | h
        · exact Or.inr ⟨⟨k, hk⟩, Nat.lt_succ_self k, hbeep, h.symm⟩
        · rcases ih h with h | ⟨i, hik, hb, hf⟩
          · exact Or.inl h
          · exact Or.inr ⟨i, Nat.lt_succ_of_lt hik, hb, hf⟩
      · intro h
        rcases ih h with h | ⟨i, hik, hb, hf⟩
        · exact Or.inl h
        · exact Or.inr ⟨i, Nat.lt_succ_of_lt hik, hb, hf⟩
    · intro h
      rcases ih h with h | ⟨i, hik, hb, hf⟩
      · exact Or.inl h
      · exact Or.inr ⟨i, Nat.lt_succ_of_lt hik, hb, hf⟩

/-! ## Helper lemmas about the resolver and the step -/

theorem is_inside_eq_of_dims (g h : ColorGrid) (hw : g.width = h.width)
    (hh : g.height = h.height) : g.is_inside = h.is_inside := by
  funext p
  unfold ColorGrid.is_inside
  rw [hw, hh]

theorem acceptedPos_inside (g : ColorGrid) (cur prop : Fin n → Int × Int) (i : Fin n)
    (hcur : ∀ j, g.is_inside (cur j) = true) :
    g.is_inside (acceptedPos g cur prop i) = true := by
  unfold acceptedPos bpos
  split
  · exact hcur i
  · split
    · next h => exact h
    · exact hcur i

theorem stepState_pos (st : MAState n) (acts : Fin n → GridAction) :
    (stepState st acts).pos = stepAccepted st acts := rfl

theorem stepState_grid_is_inside (st : MAState n) (acts : Fin n → GridAction) :
    (stepState st acts).grid.is_inside = st.grid.is_inside :=
  is_inside_eq_of_dims _ _ (gridAfter_width _ _ _ _) (gridAfter_height _ _ _ _)

theorem step_preserves_inside (st : MAState n) (acts : Fin n → GridAction)
    (h : ∀ i, st.grid.is_inside (st.pos i) = true) :
    ∀ i, (stepState st acts).grid.is_inside ((stepState st acts).pos i) = true := by
  intro i
  rw [stepState_grid_is_inside, stepState_pos]
  exact acceptedPos_inside _ _ _ _ h

theorem foldl_step_inside (l : List (Fin n → GridAction)) :
    ∀ st : MAState n, (∀ i, st.grid.is_inside (st.pos i) = true) →
      ∀ i, (l.foldl stepState st).grid.is_inside ((l.foldl stepState st).pos i) = true := by
  induction l with
  | nil => intro st h i; exact h i
  | cons a l ih =>
    intro st h i
    exact ih (stepState st a) (step_preserves_inside st a h) i

/-! ## Helper lemmas about the Continuous model -/

theorem wrap360_bounds (a : ℚ) : 0 ≤ wrap360 a ∧ wrap360 a < 360 := by
  have h : wrap360 a = 360 * Int.fract (a / 360) := by
    unfold wrap360
    rw [Int.fract]
    ring
  constructor
  · rw [h]
    exact mul_nonneg (by norm_num) (Int.fract_nonneg _)
  · rw [h]
    calc 360 * Int.fract (a / 360) < 360 * 1 := by
          exact mul_lt_mul_of_pos_left (Int.fract_lt_one _) (by norm_num)
      _ = 360 := by norm_num

theorem clampV_bounds (P : ContParams) (h : P.v_min ≤ P.v_max) (v : ℚ) :
    P.v_min ≤ clampV P v ∧ clampV P v ≤ P.v_max :=
  ⟨le_max_left _ _, max_le h (min_le_left _ _)⟩

/-! ## The claims -/

/-- Claim C1: for every per-agent event record, the reward computed by
`RewardPolicy.score` equals `reward_per_step`, plus `reward_outside_grid`
exactly when `hit_boundary` is set, plus `reward_duplicate_beep` exactly
when `duplicate_beep` is set, and nothing else: the score of two events
agreeing on those two flags is the same, so a beep on an unvisited
coloured cell adds no reward. -/
theorem C1_reward_decomposition :
    ∀ (rc : RewardConfig) (e f : StepEvent),
      RewardPolicy.score rc e =
        rc.reward_per_step +
          (if e.hit_boundary then rc.reward_outside_grid else 0) +
          (if e.duplicate_beep then rc.reward_duplicate_beep else 0) ∧
      (e.hit_boundary = f.hit_boundary → e.duplicate_beep = f.duplicate_beep →
        RewardPolicy.score rc e = RewardPolicy.score rc f) := by
  intro rc e f
  constructor
  · rfl
  · intro h1 h2
    unfold RewardPolicy.score
    rw [h1, h2]

/-- Witness for C1 at a concrete input: an event that beeps a fresh
coloured cell scores the same as an event with no beep at all. -/
theorem C1_reward_decomposition_witness :
    RewardPolicy.score ⟨-1/100, -1, -1⟩ ⟨false, false, true, false⟩ =
      RewardPolicy.score ⟨-1/100, -1, -1⟩ ⟨false, false, false, false⟩ :=
  (C1_reward_decomposition ⟨-1/100, -1, -1⟩ ⟨false, false, true, false⟩
    ⟨false, false, false, false⟩).2 rfl rfl

/-- Claim C2: starting from a configuration whose initial positions are
inside the grid, after every `step()` each committed agent position
satisfies `grid.is_inside`; moreover an out-of-bounds proposal never
escapes: the resolver converts it into the agent keeping its current
position with `hit_boundary` set. -/
theorem C2_boundary_containment :
    (∀ (n : Nat) (c : EngineConf n),
      (∀ i, c.grid0.is_inside (c.inits i) = true) →
      ∀ (l : List (Fin n → GridAction)) (i : Fin n),
        (runSteps c l).grid.is_inside ((runSteps c l).pos i) = true) ∧
    (∀ (n : Nat) (st : MAState n) (acts : Fin n → GridAction) (i : Fin n),
      st.grid.is_inside (stepProp st acts i) = false →
        (stepState st acts).pos i = st.pos i ∧
        (stepEvents st acts i).hit_boundary = true) := by
  constructor
  · intro n c h l i
    exact foldl_step_inside l (resetState c) (fun j => h j) i
  · intro n st acts i h
    have hbp : bpos st.grid st.pos (stepProp st acts) i = st.pos i := by
      unfold bpos
      simp [h]
    constructor
    · show acceptedPos st.grid st.pos (stepProp st acts) i = st.pos i
      unfold acceptedPos
      rw [hbp]
      split <;> rfl
    · show hitB st.grid st.pos (stepProp st acts) i = true
      unfold hitB
      simp [h]

/-- Witness for C2 at a concrete input: from the corner (0,0) of the
blank 5 by 5 grid, a `left` action keeps the agent at (0,0) with
`hit_boundary` set, and the position after the step is inside the
grid. -/
theorem C2_boundary_containment_witness :
    (runSteps edgeConf [fun _ => GridAction.left]).grid.is_inside
        ((runSteps edgeConf [fun _ => GridAction.left]).pos 0) = true ∧
    (stepState edgeSt0 (fun _ => GridAction.left)).pos 0 = edgeSt0.pos 0 ∧
    (stepEvents edgeSt0 (fun _ => GridAction.left) 0).hit_boundary = true :=
  ⟨C2_boundary_containment.1 1 edgeConf
      (fun _ => by show blank5.is_inside ((0 : Int), (0 : Int)) = true; decide)
      [fun _ => GridAction.left] 0,
   C2_boundary_containment.2 1 edgeSt0 (fun _ => GridAction.left) 0 (by decide)⟩

/-- Claim C3: when two or more boundary-checked accepted positions
coincide on one cell, the lowest-index agent keeps its proposed position
(given its proposal is in bounds and no lower index conflicts with it)
and every other conflicting agent is reverted to its pre-step position
with its violation flag set.  The tie-break reads only the agent index
and the proposals, and the resolver is a pure function, so identical
action sequences reproduce identical outcomes. -/
theorem C3_collision_tiebreak :
    ∀ (n : Nat) (g : ColorGrid) (cur prop : Fin n → Int × Int) (i : Fin n),
      (g.is_inside (prop i) = true →
        (∀ j, j < i → bpos g cur prop j ≠ bpos g cur prop i) →
        acceptedPos g cur prop i = prop i) ∧
      ((∃ j, j < i ∧ bpos g cur prop j = bpos g cur prop i) →
        acceptedPos g cur prop i = cur i ∧ hitB g cur prop i = true) := by
  intro n g cur prop i
  constructor
  · intro hin hno
    have hb : blockedB g cur prop i = false := by
      unfold blockedB
      simp only [decide_eq_false_iff_not]
      rintro ⟨j, hj, he⟩
      exact hno j hj he
    unfold acceptedPos
    rw [hb]
    unfold bpos
    simp [hin]
  · rintro ⟨j, hj, he⟩
    have hb : blockedB g cur prop i = true := by
      unfold blockedB
      exact decide_eq_true ⟨j, hj, he⟩
    constructor
    · unfold acceptedPos
      rw [hb]
      rfl
    · unfold hitB
      rw [hb]
      simp

/-- Witness for C3 at a concrete input: two agents both propose (1,1);
agent 0 gets (1,1), agent 1 is reverted to its pre-step position (2,2)
with its violation flag set. -/
theorem C3_collision_tiebreak_witness :
    acceptedPos blank5 twoCur twoProp 0 = (1, 1) ∧
    acceptedPos blank5 twoCur twoProp 1 = (2, 2) ∧
    hitB blank5 twoCur twoProp 1 = true := by
  have h0 := (C3_collision_tiebreak 2 blank5 twoCur twoProp 0).1 (by decide) (by decide)
  have h1 := (C3_collision_tiebreak 2 blank5 twoCur twoProp 1).2 (by decide)
  exact ⟨h0, h1.1, h1.2⟩

/-- Claim C4: `mark_visited` returns true iff the cell is coloured
(non-blank) and not yet visited; on a blank cell it returns false and
changes no state; it returns false on an already-visited cell; and in
the step pipeline the duplicate-beep flag of an agent is set exactly
when its action is beep and the `mark_visited` call made for it (on the
grid as updated by the lower-index beeps) returned false on a coloured
cell. -/
theorem C4_mark_visited_contract :
    (∀ (g : ColorGrid) (p : Int × Int),
      ((g.mark_visited p).1 = true ↔ g.colorAt p ≠ Color.blank ∧ p ∉ g.visited)) ∧
    (∀ (g : ColorGrid) (p : Int × Int), g.colorAt p = Color.blank →
      g.mark_visited p = (false, g)) ∧
    (∀ (g : ColorGrid) (p : Int × Int), p ∈ g.visited →
      (g.mark_visited p).1 = false) ∧
    (∀ (n : Nat) (st : MAState n) (acts : Fin n → GridAction) (i : Fin n),
      (stepEvents st acts i).duplicate_beep = true ↔
        (acts i = GridAction.beep ∧
          st.grid.colorAt (stepAccepted st acts i) ≠ Color.blank ∧
          ((gridAfter st.grid acts (stepAccepted st acts) i.val).mark_visited
              (stepAccepted st acts i)).1 = false)) := by
  refine ⟨mark_fst_iff, mark_blank_eq, mark_fst_false_of_mem, ?_⟩
  intro n st acts i
  show dupFlag st.grid acts (stepAccepted st acts) i = true ↔ _
  unfold dupFlag
  rw [gridAfter_colorAt]
  simp only [Bool.and_eq_true, beq_iff_eq, Bool.not_eq_true', bne_iff_ne]
  tauto

/-- Witness for C4 at a concrete input: marking the blank cell (0,0) of
the blank 5 by 5 grid returns false and leaves the grid unchanged. -/
theorem C4_mark_visited_contract_witness :
    blank5.mark_visited (0, 0) = (false, blank5) :=
  C4_mark_visited_contract.2.1 blank5 (0, 0) rfl

/-- Claim C5: once `mark_visited` has returned true for a cell, every
subsequent call for that cell, after any further sequence of marks and
without an intervening reset, returns false; within the engine a step
never clears a visited cell, and a step can set a cell visited only
through a beep event of an agent accepted on that cell. -/
theorem C5_beep_monotonicity :
    (∀ (g : ColorGrid) (c : Int × Int), (g.mark_visited c).1 = true →
      ∀ ps : List (Int × Int),
        ((markAll (g.mark_visited c).2 ps).mark_visited c).1 = false) ∧
    (∀ (n : Nat) (st : MAState n) (acts : Fin n → GridAction) (p : Int × Int),
      p ∈ st.grid.visited → p ∈ (stepState st acts).grid.visited) ∧
    (∀ (n : Nat) (st : MAState n) (acts : Fin n → GridAction) (p : Int × Int),
      p ∈ (stepState st acts).grid.visited →
        p ∈ st.grid.visited ∨
          ∃ i, acts i = GridAction.beep ∧ stepAccepted st acts i = p) := by
  refine ⟨?_, ?_, ?_⟩
  · intro g c h ps
    exact mark_fst_false_of_mem _ _
      (markAll_visited_mono ps _ c (mark_mem_of_fst_true g c h))
  · intro n st acts p hp
    exact gridAfter_visited_mono st.grid acts (stepAccepted st acts) n p hp
  · intro n st acts p hp
    rcases gridAfter_visited_cases st.grid acts (stepAccepted st acts) n p hp with
      h | ⟨i, _, hb, hf⟩
    · exact Or.inl h
    · exact Or.inr ⟨i, hb, hf⟩

/-- Witness for C5 at a concrete input: after a first successful mark of
the red cell (0,0) and two further marks, marking (0,0) again returns
false. -/
theorem C5_beep_monotonicity_witness :
    ((markAll (redGrid.mark_visited (0, 0)).2
        [((0 : Int), (0 : Int)), (5, 5)]).mark_visited (0, 0)).1 = false :=
  C5_beep_monotonicity.1 redGrid (0, 0) (by decide) [(0, 0), (5, 5)]

/-- Counterexample to claim C6 as stated: the claim quantifies over
every action, but for the `nop` action on a state with velocity 1 the
Continuous model leaves the position unchanged (as the spec requires of
beep and nop), rather than integrating the Euler step, which here would
move x from 0 to 1. -/
theorem C6_counterexample :
    ¬ ∀ (s : ContState) (a : ContAction),
        (contPropose contP0 s a).x = s.x + s.velocity * contP0.cos s.angle ∧
        (contPropose contP0 s a).y = s.y + s.velocity * contP0.sin s.angle := by
  intro h
  have hx := (h contS0 ContAction.nop).1
  norm_num [contPropose, contS0, contP0] at hx

/-- Claim C6 (amended): for every Continuous-variant state and every
accelerate, decelerate or turn action (not beep or nop), propose
integrates the position by one Euler step using the velocity and angle
from before the update of this step, so a turn or acceleration affects
displacement only from the next step onward; accelerate and decelerate
update the velocity by the acceleration step clamped to
[v_min, v_max], and turns wrap the angle into [0, 360). -/
theorem C6_continuous_euler (P : ContParams) (s : ContState) (a : ContAction)
    (hmot : a ≠ ContAction.beep ∧ a ≠ ContAction.nop) :
    ((contPropose P s a).x = s.x + s.velocity * P.cos s.angle ∧
     (contPropose P s a).y = s.y + s.velocity * P.sin s.angle) ∧
    (a = ContAction.accelerate →
      (contPropose P s a).velocity = clampV P (s.velocity + P.accel_step)) ∧
    (a = ContAction.decelerate →
      (contPropose P s a).velocity = clampV P (s.velocity - P.accel_step)) ∧
    (P.v_min ≤ P.v_max → (a = ContAction.accelerate ∨ a = ContAction.decelerate) →
      P.v_min ≤ (contPropose P s a).velocity ∧
      (contPropose P s a).velocity ≤ P.v_max) ∧
    (a = ContAction.turnLeft →
      (contPropose P s a).angle = wrap360 (s.angle + P.angle_step) ∧
      0 ≤ (contPropose P s a).angle ∧ (contPropose P s a).angle < 360) ∧
    (a = ContAction.turnRight →
      (contPropose P s a).angle = wrap360 (s.angle - P.angle_step) ∧
      0 ≤ (contPropose P s a).angle ∧ (contPropose P s a).angle < 360) := by
  cases a with
  | accelerate =>
    exact ⟨⟨rfl, rfl⟩, fun _ => rfl, fun h => by simp at h,
      fun hvm _ => clampV_bounds P hvm _, fun h => by simp at h, fun h => by simp at h⟩
  | decelerate =>
    exact ⟨⟨rfl, rfl⟩, fun h => by simp at h, fun _ => rfl,
      fun hvm _ => clampV_bounds P hvm _, fun h => by simp at h, fun h => by simp at h⟩
  | turnLeft =>
    refine ⟨⟨rfl, rfl⟩, fun h => by simp at h, fun h => by simp at h, ?_,
      fun _ => ⟨rfl, (wrap360_bounds _).1, (wrap360_bounds _).2⟩, fun h => by simp at h⟩
    intro _ hor
    rcases hor with h | h <;> simp at h
  | turnRight =>
    refine ⟨⟨rfl, rfl⟩, fun h => by simp at h, fun h => by simp at h, ?_,
      fun h => by simp at h,
      fun _ => ⟨rfl, (wrap360_bounds _).1, (wrap360_bounds _).2⟩⟩
    intro _ hor
    rcases hor with h | h <;> simp at h
  | beep => exact absurd rfl hmot.1
  | nop => exact absurd rfl hmot.2

/-- Witness for the amended C6 at a concrete input: accelerating from
the concrete state keeps the velocity within the configured bounds. -/
theorem C6_continuous_euler_witness :
    (contPropose contP0 contS0 ContAction.accelerate).x =
      contS0.x + contS0.velocity * contP0.cos contS0.angle ∧
    contP0.v_min ≤ (contPropose contP0 contS0 ContAction.accelerate).velocity ∧
    (contPropose contP0 contS0 ContAction.accelerate).velocity ≤ contP0.v_max :=
  ⟨(C6_continuous_euler contP0 contS0 ContAction.accelerate (by decide)).1.1,
   (C6_continuous_euler contP0 contS0 ContAction.accelerate (by decide)).2.2.2.1
      (by norm_num [contP0]) (Or.inl rfl)⟩

/-- Claim C7: on the 5 by 5 all-blank grid, one Grid-motion agent
starting at (1,1) executing [right, right, up] ends at (3,2); no step
has a boundary violation or a duplicate beep, so for every reward
configuration each step scores exactly `reward_per_step`. -/
theorem C7_scenario :
    scenarioSt3.pos 0 = (3, 2) ∧
    scenarioSt3 = runSteps scenarioConf scenarioActs ∧
    scenarioEv1.hit_boundary = false ∧ scenarioEv2.hit_boundary = false ∧
    scenarioEv3.hit_boundary = false ∧
    scenarioEv1.duplicate_beep = false ∧ scenarioEv2.duplicate_beep = false ∧
    scenarioEv3.duplicate_beep = false ∧
    ∀ rc : RewardConfig,
      RewardPolicy.score rc scenarioEv1 = rc.reward_per_step ∧
      RewardPolicy.score rc scenarioEv2 = rc.reward_per_step ∧
      RewardPolicy.score rc scenarioEv3 = rc.reward_per_step := by
  have e1b : scenarioEv1.hit_boundary = false := by decide
  have e2b : scenarioEv2.hit_boundary = false := by decide
  have e3b : scenarioEv3.hit_boundary = false := by decide
  have e1d : scenarioEv1.duplicate_beep = false := by decide
  have e2d : scenarioEv2.duplicate_beep = false := by decide
  have e3d : scenarioEv3.duplicate_beep = false := by decide
  refine ⟨by decide, rfl, e1b, e2b, e3b, e1d, e2d, e3d, ?_⟩
  intro rc
  refine ⟨?_, ?_, ?_⟩ <;>
    simp [RewardPolicy.score, e1b, e2b, e3b, e1d, e2d, e3d]

/-- Claim C8: for every motion-model variant and every kinematic state,
`propose` with nop is the identity, and likewise `propose` with beep
leaves position, orientation and velocity unchanged. -/
theorem C8_nop_beep_identity :
    ∀ (p : Int × Int) (s : RotaryState) (P : ContParams) (t : ContState),
      gridPropose p GridAction.nop = p ∧ gridPropose p GridAction.beep = p ∧
      rotaryPropose s RotaryAction.nop = s ∧ rotaryPropose s RotaryAction.beep = s ∧
      contPropose P t ContAction.nop = t ∧ contPropose P t ContAction.beep = t :=
  fun _ _ _ _ => ⟨rfl, rfl, rfl, rfl, rfl, rfl⟩

/-- Claim C9: after `reset()`, regardless of prior history, the visited
set is empty, every violation counter is zero, the beep flags are clear
and every agent is at its configured initial state; and `reset` is the
only way back to all-unvisited, because a `step` whose result has an
empty visited set must have started from one. -/
theorem C9_reset_completeness :
    (∀ (n : Nat) (c : EngineConf n),
      (∀ p, p ∉ (resetState c).grid.visited) ∧
      (∀ i, (resetState c).pos i = c.inits i ∧
        (resetState c).boundary_count i = 0 ∧
        (resetState c).dup_count i = 0 ∧
        (resetState c).beep_flag i = false)) ∧
    (∀ (n : Nat) (st : MAState n) (acts : Fin n → GridAction),
      (stepState st acts).grid.visited = [] → st.grid.visited = []) := by
  constructor
  · intro n c
    exact ⟨fun p h => by simp [resetState] at h, fun i => ⟨rfl, rfl, rfl, rfl⟩⟩
  · intro n st acts h
    cases hv : st.grid.visited with
    | nil => rfl
    | cons p l =>
      have hp : p ∈ st.grid.visited := by
        rw [hv]
        exact List.mem_cons_self p l
      have hmem : p ∈ (stepState st acts).grid.visited :=
        gridAfter_visited_mono st.grid acts (stepAccepted st acts) n p hp
      rw [h] at hmem
      exact absurd hmem (List.not_mem_nil p)

/-- Witness for C9 at a concrete input: a nop step of the reset scenario
state has an empty visited set, so the state it started from has one
too. -/
theorem C9_reset_completeness_witness :
    scenarioSt0.grid.visited = [] :=
  C9_reset_completeness.2 1 scenarioSt0 (fun _ => GridAction.nop) (by decide)

/-- Claim C10: for every agent configuration, which specifies only an
initial position, the observation returned by `reset()` reports the
orientation theta = 1, an angle of 90 degrees rather than 0, beep flag
false and velocity 0. -/
theorem C10_reset_observation :
    ∀ (g : ColorGrid) (init : Int × Int),
      (resetObs g init).theta = 1 ∧
      (resetObs g init).angle = 90 ∧
      (resetObs g init).beep = false ∧
      (resetObs g init).velocity = 0 := by
  intro g init
  refine ⟨?_, rfl, rfl, rfl⟩
  show thetaOfAngle defaultInitAngle = 1
  norm_num [thetaOfAngle, defaultInitAngle]

end Sapientino
